/-
Verification of the braze/mparticle merge scripts.

Shallow embedding of the three Python sources:
  - chunkify.py                                     (split_csv)
  - step1_email_mobile_identifier_child_profiles.py (retryable_post, build_modify_payload,
                                                     build_events_payload, process_file, main)
  - step2_email_identifier_winner_profile.py        (send_batch, chunkify, main)

HTTP interaction is modelled by a scripted stream of `Outcome`s: each POST the
code performs consumes the next element of the stream (a response or a raised
network exception).  Wall-clock behaviour (time.sleep, backoff delays,
timeouts) is not modelled; only the sequence of attempts is.  File and logging
side effects are likewise dropped: a chunk file is its parsed list of rows, a
summary file is its list of result records.
-/
import Mathlib

namespace Merge

/-- Single-quote character, written via its code point. -/
def squote : Char := Char.ofNat 39

/-- Double-quote character, written via its code point. -/
def dquote : Char := Char.ofNat 34

/-! ### chunkify.py : split_csv -/

/-- Drop the longest suffix whose characters satisfy `p`
(the trailing half of a Python `strip`). -/
def dropEndWhile (p : Char → Bool) (s : List Char) : List Char :=
  (s.reverse.dropWhile p).reverse

/-- Drop the longest prefix and suffix whose characters satisfy `p`
(Python `str.strip` with an explicit character class). -/
def stripWhile (p : Char → Bool) (s : List Char) : List Char :=
  dropEndWhile p (s.dropWhile p)

/-- Python `s.strip()` (whitespace at both ends). -/
def pyStrip (s : String) : String :=
  ⟨stripWhile (fun c => c.isWhitespace) s.data⟩

/-- Python `s.strip(c)` for a single character `c` (all copies of `c` at both ends). -/
def pyStripChar (c : Char) (s : String) : String :=
  ⟨stripWhile (fun d => d == c) s.data⟩

/-- Cell cleaning in split_csv: when the cell is falsy the empty string,
otherwise strip whitespace, then all surrounding single quotes, then all
surrounding double quotes, in that order. -/
def cleanCell (col : String) : String :=
  if col = "" then "" else pyStripChar dquote (pyStripChar squote (pyStrip col))

/-- The row loop of split_csv.  `rowCount` is the running `row_count`
variable and `cur` the rows written to the currently open output file, most
recent first.  A new output file is started whenever `row_count >= chunk_size`
is observed before a write; the final file is closed (emitted) at the end of
the input. -/
def splitLoop (C : Nat) : List (List String) → Nat → List (List String) →
    List (List (List String))
  | [], _, cur => [cur.reverse]
  | r :: rs, rowCount, cur =>
    let cleaned := r.map cleanCell
    if C ≤ rowCount then
      cur.reverse :: splitLoop C rs 1 [cleaned]
    else
      splitLoop C rs (rowCount + 1) (cleaned :: cur)

/-- split_csv from chunkify.py.  The input file is given as its header and
data rows; the result is the list of output files, each one the header
followed by its (cleaned) data rows. -/
def split_csv (header : List String) (rows : List (List String)) (chunk_size : Nat) :
    List (List (List String)) :=
  (splitLoop chunk_size rows 0 []).map (fun chunk => header :: chunk)

/-! ### step1: data model -/

/-- One entry of the `identity_changes` list of a modify payload. -/
structure IdentityChange where
  old_value : Option String
  new_value : Option String
  identity_type : String
deriving DecidableEq, Repr

/-- JSON payload sent by step1.  Only the fields the control flow of the
scripts reads or writes are modelled: `environment` (mutated by the
"MpId doesn\x27t exist" handler), `identity_changes` (present on modify
payloads, absent — `none` — on events payloads, mutated by the
"ToModifyIdentities is empty." handler) and `mpid` (events payloads).  The
constant-valued event/user-attribute fields of build_events_payload are never
read back by the code and are elided. -/
structure Payload where
  environment : String
  identity_changes : Option (List IdentityChange)
  mpid : Option String
deriving DecidableEq, Repr

/-- An HTTP response as the scripts observe it: its status code, the value of
`resp.json().get("Errors", [\x7b\x7d])[0].get("message")` (when the body has no
such field, `none`), and `resp.text`. -/
structure Resp where
  status : Nat
  errorsMsg : Option String
  text : String
deriving DecidableEq, Repr

/-- What one `requests.post` call yields: a response, or a raised
`requests.exceptions.RequestException` carrying its text. -/
inductive Outcome where
  | exc (msg : String)
  | resp (r : Resp)
deriving DecidableEq, Repr

/-- Result of one retryable_post call: either the Python triple
`(response-or-none, attempt-count, error-message-or-none)`, or `crash` when
the call raises an exception no handler catches (the `resp.status_code`
AttributeError on a `None` response returned by the special-cased 400
recursion, or the KeyError when `json_payload["identity_changes"]` is
missing). -/
inductive RPResult where
  | ok (resp : Option Resp) (attempt : Nat) (err : Option String)
  | crash
deriving DecidableEq, Repr

/-- MAX_RETRIES from step1. -/
def MAX_RETRIES : Nat := 3

/-- ENVIRONMENT from step1. -/
def ENVIRONMENT : String := "production"

/-- The first special-cased 400 body message. -/
def mpidMissingMsg : String := "MpId doesn\x27t exist"

/-- The second special-cased 400 body message. -/
def toModifyEmptyMsg : String := "ToModifyIdentities is empty."

/-- Error text used when the scripted outcome stream is exhausted: the model
treats a POST with no scripted outcome as a network exception. -/
def noResponseMsg : String := "no response"

/-- The `last_err` string `"Status {code}: {text}"`. -/
def statusText (r : Resp) : String :=
  "Status " ++ toString r.status ++ ": " ++ r.text

/-- The per-element payload mutation of the "ToModifyIdentities is empty."
loop body: if element `i` of `identity_changes` has identity type
`mobile_number`, null out its `old_value`; otherwise the payload is
unchanged.  (The elements are shared mutable dicts in the source; setting
`old_value` on one of them is visible through the shared payload.) -/
def nullAt (p : Payload) (i : Nat) : Payload :=
  match p.identity_changes with
  | none => p
  | some chs =>
    match chs.get? i with
    | none => p
    | some ic =>
      if ic.identity_type = "mobile_number" then
        { p with identity_changes := some (chs.set i { ic with old_value := none }) }
      else p

/-! ### step1: retryable_post

The while loop of retryable_post with its special-cased 400 recursion.  Both
recursive calls `resp, attempt, last_err = retryable_post(url, auth,
json_payload, dry_run)` (a) share the one mutable `json_payload` dict, and
(b) overwrite every local of the suspended loop iteration, so a suspended
frame keeps no loop state of its own.  What a suspended frame does when its
recursive call returns is therefore determined by where in the body it is
suspended, which is one of exactly two places (the type `Frame` below):

  * `envResend` — suspended at the environment resend of the
    "MpId doesn\x27t exist" branch.  On return it falls through: it
    recomputes `last_err` from the returned response, `continue`s its own
    while loop when that status is 5xx/429, and otherwise returns the value
    upward.  A returned `None` response crashes on `resp.status_code`
    (uncaught AttributeError).
  * `identLoop next` — suspended inside
    `for ident in json_payload["identity_changes"]`, having just made the
    re-entry for element `next - 1`.  On return, if elements remain it
    discards the returned value, applies the loop-body mutation to element
    `next` and re-enters (a fresh call: attempt 0, no error); once the loop
    is over the returned value flows into the same fall-through as above.

Because the one shared `identity_changes` list is never replaced or resized
(only element fields are nulled), an index into it identifies a loop
position across all frames.  A returned response never has a retryable
status (a frame that receives a 5xx/429 directly continues instead of
returning), so propagating a return through the stack (`cascadeResp` /
`cascadeNone`) pops frames until it reaches a frame with loop work left, a
frame that resumes on a retryable status, the bottom of the stack, or a
crash.

The loop itself (`retryLoop`) consumes one scripted outcome per POST.  On an
exhausted script every POST is treated as a network exception, so every
pending call returns `None` after its three attempts; the run then crashes
at the first suspended frame that runs the fall-through on `None`, after the
remaining identity re-entries (if any) burn their attempts (`drainStack`,
`drainPosts`). -/

/-- A suspended retryable_post stack frame (see the section comment). -/
inductive Frame where
  | envResend
  | identLoop (next : Nat)
deriving DecidableEq, Repr

/-- Result of processing one event of the machine: the whole call tree
finished with `r`, or the innermost active loop is now in the given state
(payload, attempts made, `last_err`, suspended frames). -/
inductive StepRes where
  | final (r : RPResult)
  | next (p : Payload) (attempt : Nat) (lastErr : Option String) (stack : List Frame)
deriving DecidableEq, Repr

/-- Propagate `return resp, a, last_err` (with a real response) through the
suspended frames: an `identLoop` frame with elements left discards the value
and starts the next re-entry (after the loop-body nulling); any other frame
runs the fall-through, resuming its own loop on a 5xx/429 and returning
further up otherwise.  The `identity_changes = none` arm is unreachable
(frames are only pushed when the key is present, and no mutation removes
it); it is rendered as the KeyError crash the source would raise there. -/
def cascadeResp (p : Payload) (r : Resp) (a : Nat) (e : Option String) :
    List Frame → StepRes
  | [] => StepRes.final (RPResult.ok (some r) a e)
  | Frame.envResend :: rest =>
    if 500 ≤ r.status ∨ r.status = 429 then
      StepRes.next p a (some (statusText r)) rest
    else
      cascadeResp p r a (some (statusText r)) rest
  | Frame.identLoop i :: rest =>
    match p.identity_changes with
    | none => StepRes.final RPResult.crash
    | some chs =>
      if i < chs.length then
        StepRes.next (nullAt p i) 0 none (Frame.identLoop (i + 1) :: rest)
      else
        if 500 ≤ r.status ∨ r.status = 429 then
          StepRes.next p a (some (statusText r)) rest
        else
          cascadeResp p r a (some (statusText r)) rest

/-- Propagate `return None, a, last_err` (attempt budget exhausted) through
the suspended frames: an `identLoop` frame with elements left discards it
and starts the next re-entry; every other frame evaluates
`resp.status_code` on `None` and the uncaught AttributeError crashes the
run. -/
def cascadeNone (p : Payload) (a : Nat) (e : Option String) : List Frame → StepRes
  | [] => StepRes.final (RPResult.ok none a e)
  | Frame.envResend :: _ => StepRes.final RPResult.crash
  | Frame.identLoop i :: rest =>
    match p.identity_changes with
    | none => StepRes.final RPResult.crash
    | some chs =>
      if i < chs.length then
        StepRes.next (nullAt p i) 0 none (Frame.identLoop (i + 1) :: rest)
      else
        StepRes.final RPResult.crash

/-- One loop iteration of the innermost active call consuming the outcome of
its POST (the body of the while loop, lines 78-105 of step1):
2xx returns (propagated through the stack); a 400 with the
"MpId doesn\x27t exist" body sets environment to development and re-enters
(one `envResend` frame); a 400 with the "ToModifyIdentities is empty." body
raises KeyError when the payload has no `identity_changes` key, falls
through to a terminal return when the list is empty (the for loop body never
runs, so `resp` is still the 400), and otherwise runs the first loop
iteration: null element 0 if mobile, then re-enter (an `identLoop 1` frame);
a 5xx or 429 records the status text and continues the same loop; any other
response returns with the status text (propagated through the stack). -/
def consumeOutcome (p : Payload) (a : Nat) (stack : List Frame) :
    Outcome → StepRes
  | Outcome.exc m => StepRes.next p (a + 1) (some m) stack
  | Outcome.resp r =>
    if 200 ≤ r.status ∧ r.status < 300 then
      cascadeResp p r (a + 1) none stack
    else if r.status = 400 ∧ r.errorsMsg = some mpidMissingMsg then
      StepRes.next { p with environment := "development" } 0 none
        (Frame.envResend :: stack)
    else if r.status = 400 ∧ r.errorsMsg = some toModifyEmptyMsg then
      match p.identity_changes with
      | none => StepRes.final RPResult.crash
      | some chs =>
        match chs with
        | [] => cascadeResp p r (a + 1) (some (statusText r)) stack
        | _ :: _ => StepRes.next (nullAt p 0) 0 none (Frame.identLoop 1 :: stack)
    else if 500 ≤ r.status ∨ r.status = 429 then
      StepRes.next p (a + 1) (some (statusText r)) stack
    else
      cascadeResp p r (a + 1) (some (statusText r)) stack

/-- POSTs made on an exhausted script by the remaining identity re-entries
for elements `i, i+1, ...` (`fuel` many): each re-entry first applies the
loop-body nulling, then burns MAX_RETRIES synthetic attempts on the mutated
payload and returns `None`, so the next re-entry starts. -/
def drainPosts (p : Payload) : Nat → Nat → List Payload
  | _, 0 => []
  | i, fuel + 1 =>
    List.replicate MAX_RETRIES (nullAt p i) ++ drainPosts (nullAt p i) (i + 1) fuel

/-- Resolution of `return None, a, e` on an exhausted script: with no
suspended frames the triple is the final result; an `identLoop` frame with
elements left runs its remaining re-entries (each returning `None` after
MAX_RETRIES synthetic attempts) and then crashes on the fall-through;
every other frame crashes immediately. -/
def drainStack (p : Payload) (a : Nat) (e : Option String) :
    List Frame → RPResult × List Payload
  | [] => (RPResult.ok none a e, [])
  | Frame.envResend :: _ => (RPResult.crash, [])
  | Frame.identLoop i :: _ =>
    match p.identity_changes with
    | none => (RPResult.crash, [])
    | some chs =>
      if i < chs.length then (RPResult.crash, drainPosts p i (chs.length - i))
      else (RPResult.crash, [])

/-- The retryable_post machine.  Arguments: shared payload, attempts made by
the innermost active loop, its `last_err`, the suspended frames, the
remaining scripted outcomes.  Returns the overall result, the unconsumed
outcomes, and the payload value sent by each POST in order.  While the
attempt budget lasts, each step consumes one outcome; an exhausted budget
returns `None` through the stack, which either finishes, crashes, or starts
a fresh identity re-entry (attempt 0) that consumes the next outcome. -/
def retryLoop : Payload → Nat → Option String → List Frame → List Outcome →
    RPResult × List Outcome × List Payload
  | p, a, e, stack, [] =>
    if a < MAX_RETRIES then
      ((drainStack p MAX_RETRIES (some noResponseMsg) stack).1, [],
       List.replicate (MAX_RETRIES - a) p ++
         (drainStack p MAX_RETRIES (some noResponseMsg) stack).2)
    else
      ((drainStack p a e stack).1, [], (drainStack p a e stack).2)
  | p, a, e, stack, o :: rest =>
    if a < MAX_RETRIES then
      match consumeOutcome p a stack o with
      | StepRes.final r => (r, rest, [p])
      | StepRes.next p2 a2 e2 stack2 =>
        let t := retryLoop p2 a2 e2 stack2 rest
        (t.1, t.2.1, p :: t.2.2)
    else
      match cascadeNone p a e stack with
      | StepRes.final r => (r, o :: rest, [])
      | StepRes.next p2 a2 _ stack2 =>
        -- a fresh identity re-entry (attempt 0): it consumes the next outcome
        match consumeOutcome p2 a2 stack2 o with
        | StepRes.final r => (r, rest, [p2])
        | StepRes.next p3 a3 e3 stack3 =>
          let t := retryLoop p3 a3 e3 stack3 rest
          (t.1, t.2.1, p2 :: t.2.2)

/-- retryable_post from step1.  `dry_run=True` returns `(None, 0, None)`
without touching the network; otherwise the retry loop runs with a fresh
attempt counter and no suspended frames. -/
def retryable_post (p : Payload) (dry_run : Bool) (outs : List Outcome) :
    RPResult × List Outcome × List Payload :=
  if dry_run then (RPResult.ok none 0 none, outs, [])
  else retryLoop p 0 none [] outs

/-! ### step1: payload builders and row processing -/

/-- Python `x.strip() if x and x.strip() != "" else None` on an optional
string (blank normalisation inside build_modify_payload). -/
def normOpt : Option String → Option String
  | none => none
  | some s => if s = "" then none else if pyStrip s = "" then none else some (pyStrip s)

/-- build_modify_payload from step1: normalise blanks to `None`, then emit one
identity change clearing the email and one clearing the phone, each only when
present; when both are absent the `identity_changes` list is empty. -/
def build_modify_payload (email phone : Option String) (environment : String) : Payload :=
  let email := normOpt email
  let phone := normOpt phone
  if email = none ∧ phone = none then
    { environment := environment, identity_changes := some [], mpid := none }
  else
    { environment := environment
      identity_changes := some
        ((match email with
          | some e => [{ old_value := some e, new_value := none, identity_type := "email" }]
          | none => []) ++
         (match phone with
          | some ph => [{ old_value := some ph, new_value := none,
                          identity_type := "mobile_number" }]
          | none => []))
      mpid := none }

/-- build_events_payload from step1 (fields the control flow can observe;
the payload has no `identity_changes` key). -/
def build_events_payload (mpid : String) : Payload :=
  { environment := ENVIRONMENT, identity_changes := none, mpid := some mpid }

/-- One parsed CSV row; a missing column reads as `""`
(`row.get(HEADER, "")`). -/
structure Row where
  email : String
  mpid : String
  phone : String
deriving DecidableEq, Repr

/-- One line of a step1 summary file. -/
structure ResultRec where
  mpid : String
  email : String
  phone : String
  modify_status : String
  events_status : String
  retries : Nat
  message : String
deriving DecidableEq, Repr

/-- Python `row.get(H, "").strip() or None`. -/
def normBlank (s : String) : Option String :=
  if pyStrip s = "" then none else some (pyStrip s)

/-- Python `a or ""` on an optional string (`None` and `""` are falsy). -/
def pyOrBlank : Option String → String
  | none => ""
  | some s => s

/-- Python `a or b or ""` on optional strings. -/
def pyOr2 (a b : Option String) : String :=
  match a with
  | some s => if s = "" then pyOrBlank b else s
  | none => pyOrBlank b

/-- Status string recorded for a retryable_post result:
`str(resp.status_code)` when a response came back, else `"failed"`. -/
def statusOf : Option Resp → String
  | some r => toString r.status
  | none => "failed"

/-- Python `s.startswith(pre)`. -/
def pyStartsWith (s pre : String) : Bool :=
  pre.data.isPrefixOf s.data

/-- The body of the row loop of process_file.  Returns `none` when the row
raises an exception nothing in process_file catches (a crash inside
retryable_post), together with the unconsumed outcomes and the payloads
POSTed for this row. -/
def process_row (row : Row) (dry_run : Bool) (outs : List Outcome) :
    Option ResultRec × List Outcome × List Payload :=
  let email := normBlank row.email
  let mpid := normBlank row.mpid
  let phone := normBlank row.phone
  match mpid with
  | none =>
    (some { mpid := "", email := pyOrBlank email, phone := pyOrBlank phone,
            modify_status := "skipped", events_status := "skipped", retries := 0,
            message := "SKIPPED: Missing MPID" }, outs, [])
  | some m =>
    let modifyPayload := build_modify_payload email phone ENVIRONMENT
    if dry_run then
      (some { mpid := m, email := pyOrBlank email, phone := pyOrBlank phone,
              modify_status := "dry-run", events_status := "dry-run", retries := 0,
              message := "" }, outs, [])
    else
      match retryable_post modifyPayload false outs with
      | (RPResult.crash, rest, sent) => (none, rest, sent)
      | (RPResult.ok resp att err, rest, sent) =>
        let modifyStatus := statusOf resp
        if pyStartsWith modifyStatus "2" then
          match retryable_post (build_events_payload m) false rest with
          | (RPResult.crash, rest2, sent2) => (none, rest2, sent ++ sent2)
          | (RPResult.ok resp2 att2 err2, rest2, sent2) =>
            (some { mpid := m, email := pyOrBlank email, phone := pyOrBlank phone,
                    modify_status := modifyStatus, events_status := statusOf resp2,
                    retries := att + att2, message := pyOr2 err err2 },
             rest2, sent ++ sent2)
        else
          (some { mpid := m, email := pyOrBlank email, phone := pyOrBlank phone,
                  modify_status := modifyStatus, events_status := "skipped_modify_failed",
                  retries := att + 0, message := pyOr2 err none }, rest, sent)

/-- process_file from step1: the rows of one chunk file processed in order.
A `none` result means a row raised and the exception escaped process_file. -/
def process_file : List Row → Bool → List Outcome →
    Option (List ResultRec) × List Outcome × List Payload
  | [], _, outs => (some [], outs, [])
  | r :: rs, dry, outs =>
    match process_row r dry outs with
    | (none, rest, sent) => (none, rest, sent)
    | (some rec, rest, sent) =>
      match process_file rs dry rest with
      | (none, rest2, sent2) => (none, rest2, sent ++ sent2)
      | (some recs, rest2, sent2) => (some (rec :: recs), rest2, sent ++ sent2)

/-- main from step1.  The file loop has no try/except: the first exception
escaping process_file aborts the whole run (`none`), and later files are
never processed. -/
def step1_main (dry : Bool) : List (List Row) → List Outcome →
    Option (List (List ResultRec)) × List Outcome × List Payload
  | [], outs => (some [], outs, [])
  | f :: fs, outs =>
    match process_file f dry outs with
    | (none, rest, sent) => (none, rest, sent)
    | (some recs, rest, sent) =>
      match step1_main dry fs rest with
      | (none, rest2, sent2) => (none, rest2, sent ++ sent2)
      | (some rss, rest2, sent2) => (some (recs :: rss), rest2, sent ++ sent2)

/-! ### step2: send_batch and main -/

/-- BATCH_SIZE from step2. -/
def BATCH_SIZE : Nat := 100

/-- ENVIRONMENT from step2. -/
def STEP2_ENVIRONMENT : String := "development"

/-- One entry of the step2 bulk-events payload (fields the scripts read). -/
structure UserEvent where
  mpid : String
  email : String
  environment : String
deriving DecidableEq, Repr

/-- One line of the step2 log file: mpid, email, status, response text. -/
structure LogRow where
  mpid : String
  email : String
  status : String
  response : String
deriving DecidableEq, Repr

/-- chunkify from step2: `data[i:i+size]` for `i in range(0, len(data), size)`.
The call site always passes `BATCH_SIZE = 100`; `size = 0` (on which Python
`range` raises) is unreachable and mapped to `[]`. -/
def chunkify (size : Nat) : List Row → List (List Row)
  | [] => []
  | x :: xs =>
    if size = 0 then []
    else (x :: xs).take size :: chunkify size ((x :: xs).drop size)
termination_by l => l.length
decreasing_by
  simp only [List.length_drop, List.length_cons]
  omega

/-- The retry loop of send_batch (`for attempt in range(retries)`).
`attempt` counts completed attempts.  Only a raised RequestException is
retried: any response, whatever its status, is logged for every row of the
batch and returned on the attempt it arrives.  Returns the log rows (`none`
when `retries = 0` and the loop body never runs, where Python falls off the
function and returns `None`), the number of POSTs made, and the unconsumed
outcomes. -/
def sendBatchLoop (batch : List Row) (retries : Nat) : Nat → List Outcome →
    Option (List LogRow) × Nat × List Outcome
  | attempt, [] =>
    if attempt < retries then
      -- every remaining attempt raises; the last one logs the error and returns
      (some (batch.map (fun q => LogRow.mk q.mpid q.email "Error" noResponseMsg)),
       retries, [])
    else (none, attempt, [])
  | attempt, Outcome.exc m :: rest =>
    if attempt < retries then
      if attempt < retries - 1 then sendBatchLoop batch retries (attempt + 1) rest
      else (some (batch.map (fun q => LogRow.mk q.mpid q.email "Error" m)),
            attempt + 1, rest)
    else (none, attempt, Outcome.exc m :: rest)
  | attempt, Outcome.resp r :: rest =>
    if attempt < retries then
      (some (batch.map (fun q => LogRow.mk q.mpid q.email (toString r.status)
        (if r.status = 202 then "Success" else r.text))), attempt + 1, rest)
    else (none, attempt, Outcome.resp r :: rest)

/-- send_batch from step2.  The bulk payload is one UserEvent per row; in dry
run the rows are logged as simulated successes and nothing is sent. -/
def send_batch (batch : List Row) (dry_run : Bool) (retries : Nat) (outs : List Outcome) :
    Option (List LogRow) × Nat × List Outcome :=
  let _payload : List UserEvent :=
    batch.map (fun r => UserEvent.mk r.mpid r.email STEP2_ENVIRONMENT)
  if dry_run then
    (some (batch.map (fun r => LogRow.mk r.mpid r.email "DRY_RUN" "Simulated")), 0, outs)
  else sendBatchLoop batch retries 0 outs

/-- The batch loop inside the per-file body of step2 main: send every batch,
collecting the logs, the total number of POSTs, and the unconsumed
outcomes. -/
def process_batches (dry : Bool) : List (List Row) → List Outcome →
    List (Option (List LogRow)) × Nat × List Outcome
  | [], outs => ([], 0, outs)
  | b :: bs, outs =>
    match send_batch b dry 3 outs with
    | (logs, att, rest) =>
      match process_batches dry bs rest with
      | (ls, att2, rest2) => (logs :: ls, att + att2, rest2)

/-- main from step2.  A file is given as `Except.error e` when reading or
processing it raises with text `e`; the per-file try/except logs the error
(`none` in the result list) and continues with the next file. -/
def step2_main (dry : Bool) : List (Except String (List Row)) → List Outcome →
    List (Option (List (Option (List LogRow)))) × Nat × List Outcome
  | [], outs => ([], 0, outs)
  | Except.error _ :: fs, outs =>
    match step2_main dry fs outs with
    | (ls, a, rest) => (none :: ls, a, rest)
  | Except.ok rows :: fs, outs =>
    match process_batches dry (chunkify BATCH_SIZE rows) outs with
    | (logs, a1, rest1) =>
      match step2_main dry fs rest1 with
      | (ls, a2, rest2) => (some logs :: ls, a1 + a2, rest2)

/-- Result record produced for a row in a dry run (skip records are emitted
even in dry runs). -/
def dry_row_result (row : Row) : ResultRec :=
  match normBlank row.mpid with
  | none =>
    { mpid := "", email := pyOrBlank (normBlank row.email),
      phone := pyOrBlank (normBlank row.phone), modify_status := "skipped",
      events_status := "skipped", retries := 0, message := "SKIPPED: Missing MPID" }
  | some m =>
    { mpid := m, email := pyOrBlank (normBlank row.email),
      phone := pyOrBlank (normBlank row.phone), modify_status := "dry-run",
      events_status := "dry-run", retries := 0, message := "" }

/-! ### Concrete fixtures used in counterexamples and witnesses -/

/-- A 400 response carrying the first special-cased body message. -/
def mpid400 : Resp :=
  { status := 400, errorsMsg := some mpidMissingMsg, text := "bad request" }

/-- A plain 200 response. -/
def okResp : Resp := { status := 200, errorsMsg := none, text := "OK" }

/-- The special-cased 400 as a scripted outcome. -/
def mpid400Outcome : Outcome := Outcome.resp mpid400

/-- The 200 response as a scripted outcome. -/
def okOutcome : Outcome := Outcome.resp okResp

/-- A modify payload with an empty identity-change list. -/
def basePayload : Payload :=
  { environment := ENVIRONMENT, identity_changes := some [], mpid := none }

/-- A 400 response carrying the second special-cased body message. -/
def tmod400 : Resp :=
  { status := 400, errorsMsg := some toModifyEmptyMsg, text := "empty" }

/-- The second special-cased 400 as a scripted outcome. -/
def tmod400Outcome : Outcome := Outcome.resp tmod400

/-- A plain 404 response. -/
def nf404 : Resp := { status := 404, errorsMsg := none, text := "nf" }

/-- The 404 response as a scripted outcome. -/
def nf404Outcome : Outcome := Outcome.resp nf404

/-- A modify payload with one email and one mobile identity change. -/
def twoChangePayload : Payload :=
  { environment := ENVIRONMENT
    identity_changes := some
      [{ old_value := some "e@x", new_value := none, identity_type := "email" },
       { old_value := some "555", new_value := none, identity_type := "mobile_number" }]
    mpid := none }

/-- `twoChangePayload` after the loop-body nulling of its mobile entry. -/
def twoChangePayloadNulled : Payload :=
  { environment := ENVIRONMENT
    identity_changes := some
      [{ old_value := some "e@x", new_value := none, identity_type := "email" },
       { old_value := none, new_value := none, identity_type := "mobile_number" }]
    mpid := none }

/-! ### Lemmas about split_csv -/

theorem splitLoop_join (C : Nat) (rows : List (List String)) :
    ∀ (k : Nat) (cur : List (List String)),
      (splitLoop C rows k cur).flatten =
        cur.reverse ++ rows.map (fun r => r.map cleanCell) := by
  induction rows with
  | nil => intro k cur; simp [splitLoop]
  | cons r rs ih =>
    intro k cur
    simp only [splitLoop]
    split
    · simp [ih]
    · simp [ih]

theorem splitLoop_sizes (C : Nat) (hC : 0 < C) (rows : List (List String)) :
    ∀ (k : Nat) (cur : List (List String)), cur.length = k → k ≤ C →
      ∀ c ∈ splitLoop C rows k cur, c.length ≤ C := by
  induction rows with
  | nil =>
    intro k cur hcur hk c hc
    simp [splitLoop] at hc
    simp [hc, hcur, hk]
  | cons r rs ih =>
    intro k cur hcur hk c hc
    simp only [splitLoop] at hc
    split at hc
    · rcases List.mem_cons.mp hc with h | h
      · subst h; simp [hcur]; omega
      · exact ih 1 _ (by simp) (by omega) c h
    · exact ih (k + 1) _ (by simp [hcur]) (by omega) c hc

theorem splitLoop_count (C : Nat) (hC : 0 < C) (rows : List (List String)) :
    ∀ (k : Nat) (cur : List (List String)), k ≤ C →
      (splitLoop C rows k cur).length = 1 + (k + rows.length - C + (C - 1)) / C := by
  induction rows with
  | nil =>
    intro k cur hk
    rw [Nat.div_eq_of_lt (by simp only [List.length_nil]; omega)]
    simp [splitLoop]
  | cons r rs ih =>
    intro k cur hk
    simp only [splitLoop]
    split
    · rw [List.length_cons, ih 1 [r.map cleanCell] (by omega)]
      have h2 : k + (r :: rs).length - C + (C - 1) = rs.length + C := by
        simp only [List.length_cons]; omega
      rw [h2, Nat.add_div_right _ hC]
      rcases le_or_lt C rs.length with h3 | h3
      · have h4 : 1 + rs.length - C + (C - 1) = rs.length := by omega
        rw [h4]
        generalize rs.length / C = q
        omega
      · have h4 : 1 + rs.length - C + (C - 1) = C - 1 := by omega
        rw [h4, Nat.div_eq_of_lt (by omega), Nat.div_eq_of_lt h3]
    · rw [ih (k + 1) _ (by omega)]
      have h5 : k + 1 + rs.length - C + (C - 1) =
          k + (r :: rs).length - C + (C - 1) := by
        simp only [List.length_cons]; omega
      rw [h5]

/-- C3 counterexample: on an input with 0 data rows and chunk size 10 the
claim predicts ⌈0/10⌉ = 0 output files, but split_csv opens the first output
file (with its header) before reading any data row and always closes it, so
one header-only file is produced. -/
theorem c3_counterexample :
    (split_csv ["h"] ([] : List (List String)) 10).length ≠
      (List.length ([] : List (List String)) + 10 - 1) / 10 := by
  decide

/-- C3 (amended): for every input CSV with R data rows and chunk size C > 0,
split_csv produces exactly ⌈R/C⌉ output files when R ≥ 1, and a single
header-only file when R = 0; each output file contains the header plus at
most C data rows; and the concatenation of the data rows of the files is exactly
the input data rows in order, each cell stripped of surrounding whitespace,
then surrounding single quotes, then surrounding double quotes — so each
original row appears, cleaned, in exactly one output file. -/
theorem c3_split_csv_amended (header : List String) (rows : List (List String))
    (C : Nat) (hC : 0 < C) :
    (split_csv header rows C).length =
      (if rows.length = 0 then 1 else (rows.length + C - 1) / C) ∧
    (∀ f ∈ split_csv header rows C, f.head? = some header ∧ f.length ≤ C + 1) ∧
    ((split_csv header rows C).map (fun f => f.drop 1)).flatten =
      rows.map (fun r => r.map cleanCell) := by
  refine ⟨?_, ?_, ?_⟩
  · rw [split_csv, List.length_map, splitLoop_count C hC rows 0 [] (by omega)]
    rcases Nat.eq_zero_or_pos rows.length with h | h
    · rw [h]
      rw [Nat.div_eq_of_lt (by omega)]
      simp
    · rw [if_neg (by omega)]
      have h1 : rows.length + C - 1 = (rows.length - 1) + C := by omega
      rw [h1, Nat.add_div_right _ hC]
      rcases le_or_lt rows.length C with h2 | h2
      · have h3 : 0 + rows.length - C + (C - 1) = C - 1 := by omega
        rw [h3, Nat.div_eq_of_lt (by omega), Nat.div_eq_of_lt (by omega)]
      · have h3 : 0 + rows.length - C + (C - 1) = rows.length - 1 := by omega
        rw [h3]
        generalize (rows.length - 1) / C = q
        omega
  · intro f hf
    rw [split_csv, List.mem_map] at hf
    obtain ⟨c, hc, rfl⟩ := hf
    refine ⟨rfl, ?_⟩
    have hsz := splitLoop_sizes C hC rows 0 [] rfl (by omega) c hc
    simp only [List.length_cons]
    omega
  · rw [split_csv, List.map_map]
    have hcomp : ((fun f => f.drop 1) ∘ fun chunk => header :: chunk) =
        (id : List (List String) → List (List String)) := by
      funext c; simp
    rw [hcomp, List.map_id, splitLoop_join]
    simp

/-- C3 witness: the amended statement applied to a concrete three-row input
with chunk size 2. -/
theorem c3_witness :
    0 < 2 ∧
    ((split_csv ["h"] [[" x "], ["y"], ["z"]] 2).length =
        (if List.length ([[" x "], ["y"], ["z"]] : List (List String)) = 0 then 1
         else (List.length ([[" x "], ["y"], ["z"]] : List (List String)) + 2 - 1) / 2) ∧
      (∀ f ∈ split_csv ["h"] [[" x "], ["y"], ["z"]] 2,
          f.head? = some ["h"] ∧ f.length ≤ 2 + 1) ∧
      ((split_csv ["h"] [[" x "], ["y"], ["z"]] 2).map (fun f => f.drop 1)).flatten =
        [[" x "], ["y"], ["z"]].map (fun r => r.map cleanCell)) :=
  ⟨by decide, c3_split_csv_amended ["h"] [[" x "], ["y"], ["z"]] 2 (by decide)⟩

/-! ### Step lemmas for the retryable_post loop -/

theorem retryable_post_eq (p : Payload) (outs : List Outcome) :
    retryable_post p false outs = retryLoop p 0 none [] outs := rfl

theorem retryLoop_cons_of_next (p : Payload) (a : Nat) (e : Option String)
    (stack : List Frame) (o : Outcome) (rest : List Outcome)
    (p2 : Payload) (a2 : Nat) (e2 : Option String) (stack2 : List Frame)
    (ha : a < MAX_RETRIES)
    (h : consumeOutcome p a stack o = StepRes.next p2 a2 e2 stack2) :
    retryLoop p a e stack (o :: rest) =
      ((retryLoop p2 a2 e2 stack2 rest).1, (retryLoop p2 a2 e2 stack2 rest).2.1,
       p :: (retryLoop p2 a2 e2 stack2 rest).2.2) := by
  simp only [retryLoop, if_pos ha, h]

theorem retryLoop_cons_of_final (p : Payload) (a : Nat) (e : Option String)
    (stack : List Frame) (o : Outcome) (rest : List Outcome) (r : RPResult)
    (ha : a < MAX_RETRIES)
    (h : consumeOutcome p a stack o = StepRes.final r) :
    retryLoop p a e stack (o :: rest) = (r, rest, [p]) := by
  simp only [retryLoop, if_pos ha, h]

theorem consume_exc (p : Payload) (a : Nat) (stack : List Frame) (m : String) :
    consumeOutcome p a stack (Outcome.exc m) =
      StepRes.next p (a + 1) (some m) stack := rfl

theorem consume_2xx (p : Payload) (a : Nat) (stack : List Frame) (r : Resp)
    (h2 : 200 ≤ r.status ∧ r.status < 300) :
    consumeOutcome p a stack (Outcome.resp r) =
      cascadeResp p r (a + 1) none stack := by
  simp only [consumeOutcome, if_pos h2]

theorem consume_mpid (p : Payload) (a : Nat) (stack : List Frame) (r : Resp)
    (hnot2 : ¬(200 ≤ r.status ∧ r.status < 300))
    (h4 : r.status = 400 ∧ r.errorsMsg = some mpidMissingMsg) :
    consumeOutcome p a stack (Outcome.resp r) =
      StepRes.next { p with environment := "development" } 0 none
        (Frame.envResend :: stack) := by
  simp only [consumeOutcome, if_neg hnot2, if_pos h4]

theorem consume_retryable (p : Payload) (a : Nat) (stack : List Frame) (r : Resp)
    (hnot2 : ¬(200 ≤ r.status ∧ r.status < 300))
    (hna : ¬(r.status = 400 ∧ r.errorsMsg = some mpidMissingMsg))
    (hnb : ¬(r.status = 400 ∧ r.errorsMsg = some toModifyEmptyMsg))
    (hret : 500 ≤ r.status ∨ r.status = 429) :
    consumeOutcome p a stack (Outcome.resp r) =
      StepRes.next p (a + 1) (some (statusText r)) stack := by
  simp only [consumeOutcome, if_neg hnot2, if_neg hna, if_neg hnb, if_pos hret]

theorem consume_terminal (p : Payload) (a : Nat) (stack : List Frame) (r : Resp)
    (hnot2 : ¬(200 ≤ r.status ∧ r.status < 300))
    (hna : ¬(r.status = 400 ∧ r.errorsMsg = some mpidMissingMsg))
    (hnb : ¬(r.status = 400 ∧ r.errorsMsg = some toModifyEmptyMsg))
    (hret : ¬(500 ≤ r.status ∨ r.status = 429)) :
    consumeOutcome p a stack (Outcome.resp r) =
      cascadeResp p r (a + 1) (some (statusText r)) stack := by
  simp only [consumeOutcome, if_neg hnot2, if_neg hna, if_neg hnb, if_neg hret]

theorem consume_tmod_noKey (p : Payload) (a : Nat) (stack : List Frame) (r : Resp)
    (hnot2 : ¬(200 ≤ r.status ∧ r.status < 300))
    (hna : ¬(r.status = 400 ∧ r.errorsMsg = some mpidMissingMsg))
    (h4 : r.status = 400 ∧ r.errorsMsg = some toModifyEmptyMsg)
    (hch : p.identity_changes = none) :
    consumeOutcome p a stack (Outcome.resp r) = StepRes.final RPResult.crash := by
  simp only [consumeOutcome, if_neg hnot2, if_neg hna, if_pos h4, hch]

theorem consume_tmod_empty (p : Payload) (a : Nat) (stack : List Frame) (r : Resp)
    (hnot2 : ¬(200 ≤ r.status ∧ r.status < 300))
    (hna : ¬(r.status = 400 ∧ r.errorsMsg = some mpidMissingMsg))
    (h4 : r.status = 400 ∧ r.errorsMsg = some toModifyEmptyMsg)
    (hch : p.identity_changes = some []) :
    consumeOutcome p a stack (Outcome.resp r) =
      cascadeResp p r (a + 1) (some (statusText r)) stack := by
  simp only [consumeOutcome, if_neg hnot2, if_neg hna, if_pos h4, hch]

theorem consume_tmod_cons (p : Payload) (a : Nat) (stack : List Frame) (r : Resp)
    (c : IdentityChange) (cs : List IdentityChange)
    (hnot2 : ¬(200 ≤ r.status ∧ r.status < 300))
    (hna : ¬(r.status = 400 ∧ r.errorsMsg = some mpidMissingMsg))
    (h4 : r.status = 400 ∧ r.errorsMsg = some toModifyEmptyMsg)
    (hch : p.identity_changes = some (c :: cs)) :
    consumeOutcome p a stack (Outcome.resp r) =
      StepRes.next (nullAt p 0) 0 none (Frame.identLoop 1 :: stack) := by
  simp only [consumeOutcome, if_neg hnot2, if_neg hna, if_pos h4, hch]

theorem cascadeResp_nil (p : Payload) (r : Resp) (a : Nat) (e : Option String) :
    cascadeResp p r a e [] = StepRes.final (RPResult.ok (some r) a e) := rfl

/-- One envResend frame processing a non-retryable response: it records the
status text and returns the value further up. -/
theorem cascadeResp_env_cons (p : Payload) (r : Resp) (a : Nat) (e : Option String)
    (rest : List Frame) (hnr : ¬(500 ≤ r.status ∨ r.status = 429)) :
    cascadeResp p r a e (Frame.envResend :: rest) =
      cascadeResp p r a (some (statusText r)) rest := by
  simp only [cascadeResp, if_neg hnr]

/-- Propagating a non-retryable response through envResend frames pops them
all, recording the status text as the error. -/
theorem cascadeResp_env_pops (r : Resp) (hnr : ¬(500 ≤ r.status ∨ r.status = 429))
    (m : Nat) :
    ∀ (p : Payload) (a : Nat) (e : Option String),
      cascadeResp p r a e (List.replicate (m + 1) Frame.envResend) =
        StepRes.final (RPResult.ok (some r) a (some (statusText r))) := by
  induction m with
  | zero =>
    intro p a e
    rw [show List.replicate (0 + 1) Frame.envResend = Frame.envResend :: [] from rfl]
    rw [cascadeResp_env_cons p r a e [] hnr]
    exact cascadeResp_nil p r a (some (statusText r))
  | succ k ih =>
    intro p a e
    rw [List.replicate_succ, cascadeResp_env_cons p r a e _ hnr]
    exact ih p a (some (statusText r))

theorem consume_mpid400Outcome (p : Payload) (a : Nat) (stack : List Frame) :
    consumeOutcome p a stack mpid400Outcome =
      StepRes.next { p with environment := "development" } 0 none
        (Frame.envResend :: stack) := by
  rw [show mpid400Outcome = Outcome.resp mpid400 from rfl]
  exact consume_mpid p a stack mpid400 (by decide) (by decide)

theorem consume_okOutcome (p : Payload) (a : Nat) (stack : List Frame) :
    consumeOutcome p a stack okOutcome = cascadeResp p okResp (a + 1) none stack := by
  rw [show okOutcome = Outcome.resp okResp from rfl]
  exact consume_2xx p a stack okResp (by decide)

theorem retryLoop_sent_head (p : Payload) (a : Nat) (e : Option String)
    (stack : List Frame) (outs : List Outcome) (ha : a < MAX_RETRIES) :
    (retryLoop p a e stack outs).2.2.head? = some p := by
  match outs with
  | [] =>
    simp only [retryLoop, if_pos ha]
    have h1 : MAX_RETRIES - a = (MAX_RETRIES - a - 1) + 1 := by
      simp only [MAX_RETRIES] at ha ⊢
      omega
    rw [h1, List.replicate_succ]
    rfl
  | o :: rest =>
    simp only [retryLoop, if_pos ha]
    match h : consumeOutcome p a stack o with
    | StepRes.final r => rfl
    | StepRes.next p2 a2 e2 stack2 => rfl

theorem retryable_post_sent_head (p : Payload) (outs : List Outcome) :
    (retryable_post p false outs).2.2.head? = some p :=
  retryLoop_sent_head p 0 none [] outs (by decide)

/-- Chain lemma: a run of n+1 consecutive special-cased 400 responses
followed by a 200, started under any number of suspended envResend frames,
performs n+2 POSTs. -/
theorem retryLoop_mpid400_chain (n : Nat) :
    ∀ (p : Payload) (k : Nat),
      retryLoop p 0 none (List.replicate k Frame.envResend)
          (List.replicate (n + 1) mpid400Outcome ++ [okOutcome]) =
        (RPResult.ok (some okResp) 1 (some (statusText okResp)), [],
         p :: List.replicate (n + 1) { p with environment := "development" }) := by
  induction n with
  | zero =>
    intro p k
    rw [show List.replicate (0 + 1) mpid400Outcome ++ [okOutcome] =
      mpid400Outcome :: [okOutcome] from rfl]
    rw [retryLoop_cons_of_next _ _ _ _ _ _ _ _ _ _ (by decide)
      (consume_mpid400Outcome p 0 (List.replicate k Frame.envResend))]
    rw [show (Frame.envResend :: List.replicate k Frame.envResend) =
      List.replicate (k + 1) Frame.envResend from rfl]
    rw [retryLoop_cons_of_final _ _ _ _ _ _ _ (by decide)
      ((consume_okOutcome _ 0 _).trans
        (cascadeResp_env_pops okResp (by decide) k _ 1 none))]
    rfl
  | succ m ih =>
    intro p k
    rw [List.replicate_succ, List.cons_append]
    rw [retryLoop_cons_of_next _ _ _ _ _ _ _ _ _ _ (by decide)
      (consume_mpid400Outcome p 0 (List.replicate k Frame.envResend))]
    rw [show (Frame.envResend :: List.replicate k Frame.envResend) =
      List.replicate (k + 1) Frame.envResend from rfl]
    rw [ih { p with environment := "development" } (k + 1)]
    simp [List.replicate_succ]

/-- C1: the claim is refuted: on a response sequence of n+1 consecutive
special-cased 400 responses ("MpId doesn\x27t exist") followed by a 200,
retryable_post performs n+2 POSTs — one resend per special-cased 400, each
re-entry resetting the attempt budget — so the mutation-and-resend is not
bounded by one.  The payload mutation itself does happen (every resent
payload has environment "development"). -/
theorem c1_special400_resend_unbounded (n : Nat) (p : Payload) :
    retryable_post p false (List.replicate (n + 1) mpid400Outcome ++ [okOutcome]) =
      (RPResult.ok (some okResp) 1 (some (statusText okResp)), [],
       p :: List.replicate (n + 1) { p with environment := "development" }) ∧
    (retryable_post p false
        (List.replicate (n + 1) mpid400Outcome ++ [okOutcome])).2.2.length = n + 2 := by
  have h : retryLoop p 0 none ([] : List Frame)
      (List.replicate (n + 1) mpid400Outcome ++ [okOutcome]) =
      (RPResult.ok (some okResp) 1 (some (statusText okResp)), [],
       p :: List.replicate (n + 1) { p with environment := "development" }) :=
    retryLoop_mpid400_chain n p 0
  rw [retryable_post_eq, h]
  simp

/-- C6: a 429 response on the first attempt followed by a 200 on the second
returns that 200 with attempt count exactly 2 (and error message None). -/
theorem c6_retry_429_then_200 (p : Payload) (em1 em2 : Option String)
    (t1 t2 : String) (rest : List Outcome) :
    retryable_post p false
        (Outcome.resp { status := 429, errorsMsg := em1, text := t1 } ::
         Outcome.resp { status := 200, errorsMsg := em2, text := t2 } :: rest) =
      (RPResult.ok (some { status := 200, errorsMsg := em2, text := t2 }) 2 none,
       rest, [p, p]) := rfl

/-- C7: when every attempt raises a network exception, exactly MAX_RETRIES = 3
attempts are made (three POSTs, the rest of the script untouched) and the call
returns no response together with the text of the last exception. -/
theorem c7_exhausted_retries (p : Payload) (m1 m2 m3 : String) (rest : List Outcome) :
    retryable_post p false
        (Outcome.exc m1 :: Outcome.exc m2 :: Outcome.exc m3 :: rest) =
      (RPResult.ok none 3 (some m3), rest, [p, p, p]) := by
  cases rest <;> rfl

/-- C2 counterexample, two parts.  First, a special-cased "MpId" 400
followed by a 200: the 200 is returned, but with error message
"Status 200: OK" rather than None (the fall-through after the resend
overwrites `last_err` from the returned response and never re-runs the 2xx
check), and with attempt count 1 despite two POSTs.  Second, a special-cased
"ToModifyIdentities" 400 on a payload with two identity changes, followed by
a 200 and then a 404: the 200 is consumed by the first per-identity re-entry
and discarded (the loop overwrites it with the result of the next re-entry),
so the call returns the 404 after three POSTs — the 200 is not returned at
all.  Both refute "on any 2xx response it returns that response with error
message None". -/
theorem c2_counterexample :
    retryable_post basePayload false [mpid400Outcome, okOutcome] =
      (RPResult.ok (some okResp) 1 (some "Status 200: OK"), [],
       [basePayload, { basePayload with environment := "development" }]) ∧
    (some "Status 200: OK" : Option String) ≠ none ∧
    retryable_post twoChangePayload false [tmod400Outcome, okOutcome, nf404Outcome] =
      (RPResult.ok (some nf404) 1 (some "Status 404: nf"), [],
       [twoChangePayload, twoChangePayload, twoChangePayloadNulled]) := by
  refine ⟨rfl, by simp, by decide⟩

/-- C2 (amended): for the retry loop of the original call (no suspended
re-entry frames), at any attempt with any pending error: (i) a 2xx is
returned on that attempt with error message None; (ii) a 4xx other than 429
and other than the two special-cased 400 bodies is returned immediately on
that attempt, with the status text as error message and no further POST;
(iii) a further POST happens only when the outcome is a network exception, a
5xx, a 429, a 400 with the "MpId doesn\x27t exist" body, or a 400 with the
"ToModifyIdentities is empty." body while the payload has a nonempty
identity_changes list.  Inside the special-cased re-entries a 2xx is not
handled as a success: (iv) a 2xx consumed by the environment resend is
returned with the status text recorded as the error message, and likewise
(v) for the final per-identity re-entry; (vi) a 2xx consumed by a
non-final per-identity re-entry is discarded outright — the call continues
with the next re-entry and the result is whatever that re-entry chain
produces. -/
theorem c2_amended_retry_semantics :
    (∀ (p : Payload) (a : Nat) (e : Option String) (r : Resp) (rest : List Outcome),
        a < MAX_RETRIES → 200 ≤ r.status → r.status < 300 →
        retryLoop p a e [] (Outcome.resp r :: rest) =
          (RPResult.ok (some r) (a + 1) none, rest, [p])) ∧
    (∀ (p : Payload) (a : Nat) (e : Option String) (r : Resp) (rest : List Outcome),
        a < MAX_RETRIES → 400 ≤ r.status → r.status < 500 → r.status ≠ 429 →
        ¬(r.status = 400 ∧ (r.errorsMsg = some mpidMissingMsg ∨
            r.errorsMsg = some toModifyEmptyMsg)) →
        retryLoop p a e [] (Outcome.resp r :: rest) =
          (RPResult.ok (some r) (a + 1) (some (statusText r)), rest, [p])) ∧
    (∀ (p : Payload) (a : Nat) (e : Option String) (o : Outcome) (rest : List Outcome),
        a < MAX_RETRIES →
        2 ≤ (retryLoop p a e [] (o :: rest)).2.2.length →
        (∃ m, o = Outcome.exc m) ∨
        (∃ r, o = Outcome.resp r ∧
          (500 ≤ r.status ∨ r.status = 429 ∨
            (r.status = 400 ∧ r.errorsMsg = some mpidMissingMsg) ∨
            (r.status = 400 ∧ r.errorsMsg = some toModifyEmptyMsg ∧
              ∃ c cs, p.identity_changes = some (c :: cs))))) ∧
    (∀ (p : Payload) (r : Resp) (rest : List Outcome),
        200 ≤ r.status → r.status < 300 →
        retryLoop p 0 none [Frame.envResend] (Outcome.resp r :: rest) =
          (RPResult.ok (some r) 1 (some (statusText r)), rest, [p])) ∧
    (∀ (p : Payload) (chs : List IdentityChange) (i : Nat) (r : Resp)
        (rest : List Outcome),
        p.identity_changes = some chs → chs.length ≤ i →
        200 ≤ r.status → r.status < 300 →
        retryLoop p 0 none [Frame.identLoop i] (Outcome.resp r :: rest) =
          (RPResult.ok (some r) 1 (some (statusText r)), rest, [p])) ∧
    (∀ (p : Payload) (chs : List IdentityChange) (i : Nat) (r : Resp)
        (rest : List Outcome),
        p.identity_changes = some chs → i < chs.length →
        200 ≤ r.status → r.status < 300 →
        retryLoop p 0 none [Frame.identLoop i] (Outcome.resp r :: rest) =
          ((retryLoop (nullAt p i) 0 none [Frame.identLoop (i + 1)] rest).1,
           (retryLoop (nullAt p i) 0 none [Frame.identLoop (i + 1)] rest).2.1,
           p :: (retryLoop (nullAt p i) 0 none
             [Frame.identLoop (i + 1)] rest).2.2)) := by
  refine ⟨?_, ?_, ?_, ?_, ?_, ?_⟩
  · intro p a e r rest ha h1 h2
    exact retryLoop_cons_of_final p a e [] _ rest _ ha
      ((consume_2xx p a [] r ⟨h1, h2⟩).trans (cascadeResp_nil p r (a + 1) none))
  · intro p a e r rest ha h1 h2 h3 h4
    exact retryLoop_cons_of_final p a e [] _ rest _ ha
      ((consume_terminal p a [] r (by omega)
          (fun hc => h4 ⟨hc.1, Or.inl hc.2⟩)
          (fun hc => h4 ⟨hc.1, Or.inr hc.2⟩)
          (by omega)).trans
        (cascadeResp_nil p r (a + 1) (some (statusText r))))
  · intro p a e o rest ha hlen
    cases o with
    | exc m => exact Or.inl ⟨m, rfl⟩
    | resp r =>
      refine Or.inr ⟨r, rfl, ?_⟩
      by_cases h2xx : 200 ≤ r.status ∧ r.status < 300
      · rw [retryLoop_cons_of_final p a e [] _ rest _ ha
          ((consume_2xx p a [] r h2xx).trans
            (cascadeResp_nil p r (a + 1) none))] at hlen
        simp at hlen
      · by_cases hma : r.status = 400 ∧ r.errorsMsg = some mpidMissingMsg
        · exact Or.inr (Or.inr (Or.inl hma))
        · by_cases hmb : r.status = 400 ∧ r.errorsMsg = some toModifyEmptyMsg
          · match hch : p.identity_changes with
            | none =>
              rw [retryLoop_cons_of_final p a e [] _ rest _ ha
                (consume_tmod_noKey p a [] r h2xx hma hmb hch)] at hlen
              simp at hlen
            | some [] =>
              rw [retryLoop_cons_of_final p a e [] _ rest _ ha
                ((consume_tmod_empty p a [] r h2xx hma hmb hch).trans
                  (cascadeResp_nil p r (a + 1) (some (statusText r))))] at hlen
              simp at hlen
            | some (c :: cs) =>
              -- the match generalized the goal, so the witness equation is rfl
              exact Or.inr (Or.inr (Or.inr ⟨hmb.1, hmb.2, c, cs, rfl⟩))

          · by_cases hret : 500 ≤ r.status ∨ r.status = 429
            · rcases hret with h | h
              · exact Or.inl h
              · exact Or.inr (Or.inl h)
            · rw [retryLoop_cons_of_final p a e [] _ rest _ ha
                ((consume_terminal p a [] r h2xx hma hmb hret).trans
                  (cascadeResp_nil p r (a + 1)
                    (some (statusText r))))] at hlen
              simp at hlen
  · intro p r rest h1 h2
    have hnr : ¬(500 ≤ r.status ∨ r.status = 429) := by omega
    exact retryLoop_cons_of_final p 0 none [Frame.envResend] _ rest _ (by decide)
      ((consume_2xx p 0 [Frame.envResend] r ⟨h1, h2⟩).trans
        ((cascadeResp_env_cons p r 1 none [] hnr).trans
          (cascadeResp_nil p r 1 (some (statusText r)))))
  · intro p chs i r rest hch hle h1 h2
    have hnr : ¬(500 ≤ r.status ∨ r.status = 429) := by omega
    have hcas : cascadeResp p r 1 none [Frame.identLoop i] =
        StepRes.final (RPResult.ok (some r) 1 (some (statusText r))) := by
      simp only [cascadeResp, hch,
        if_neg (show ¬ i < chs.length by omega), if_neg hnr]
    exact retryLoop_cons_of_final p 0 none [Frame.identLoop i] _ rest _ (by decide)
      ((consume_2xx p 0 [Frame.identLoop i] r ⟨h1, h2⟩).trans hcas)
  · intro p chs i r rest hch hlt h1 h2
    have hcas : cascadeResp p r 1 none [Frame.identLoop i] =
        StepRes.next (nullAt p i) 0 none [Frame.identLoop (i + 1)] := by
      simp only [cascadeResp, hch, if_pos hlt]
    exact retryLoop_cons_of_next p 0 none [Frame.identLoop i] _ rest _ _ _ _
      (by decide) ((consume_2xx p 0 [Frame.identLoop i] r ⟨h1, h2⟩).trans hcas)

/-- C2 witness: part (i) on a 200 arriving on the second attempt of the
original call, and part (vi) on a 200 consumed and discarded by the first of
two per-identity re-entries. -/
theorem c2_witness :
    retryLoop basePayload 1 (some "boom") [] [okOutcome] =
      (RPResult.ok (some okResp) 2 none, [], [basePayload]) ∧
    retryLoop twoChangePayload 0 none [Frame.identLoop 1]
        (Outcome.resp okResp :: [nf404Outcome]) =
      ((retryLoop (nullAt twoChangePayload 1) 0 none
          [Frame.identLoop 2] [nf404Outcome]).1,
       (retryLoop (nullAt twoChangePayload 1) 0 none
          [Frame.identLoop 2] [nf404Outcome]).2.1,
       twoChangePayload :: (retryLoop (nullAt twoChangePayload 1) 0 none
          [Frame.identLoop 2] [nf404Outcome]).2.2) :=
  ⟨c2_amended_retry_semantics.1 basePayload 1 (some "boom") okResp []
      (by decide) (by decide) (by decide),
   c2_amended_retry_semantics.2.2.2.2.2 twoChangePayload
      [{ old_value := some "e@x", new_value := none, identity_type := "email" },
       { old_value := some "555", new_value := none, identity_type := "mobile_number" }]
      1 okResp [nf404Outcome] (by decide) (by decide) (by decide) (by decide)⟩

/-- C4 counterexample: a batch whose first POST yields a 500 while a 202 is
available on the next attempt.  send_batch returns after the single attempt
with the row logged under status "500" — the 202 is never consumed — because
its retry loop retries only on raised RequestExceptions, never on a response
status code. -/
theorem c4_counterexample :
    send_batch [Row.mk "e@x" "777" ""] false 3
        [Outcome.resp { status := 500, errorsMsg := none, text := "server error" },
         Outcome.resp { status := 202, errorsMsg := none, text := "accepted" }] =
      (some [LogRow.mk "777" "e@x" "500" "server error"], 1,
       [Outcome.resp { status := 202, errorsMsg := none, text := "accepted" }]) := by
  decide

/-- C4 (amended): in the bulk-events variant only network-level exceptions
are retried, up to the fixed limit of 3 attempts; a response with any HTTP
status — including 5xx and 429 — is returned on whichever attempt it arrives
(first, second or third, i.e. after any number of preceding exceptions),
with every row of the batch logged under that status (response text
"Success" only for 202); after three consecutive exceptions the rows are
logged as "Error" with the last exception text. -/
theorem c4_send_batch_amended :
    (∀ (b : List Row) (a : Nat) (r : Resp) (rest : List Outcome), a < 3 →
        sendBatchLoop b 3 a (Outcome.resp r :: rest) =
          (some (b.map (fun q => LogRow.mk q.mpid q.email (toString r.status)
            (if r.status = 202 then "Success" else r.text))), a + 1, rest)) ∧
    (∀ (b : List Row) (r : Resp) (rest : List Outcome),
        send_batch b false 3 (Outcome.resp r :: rest) =
          (some (b.map (fun q => LogRow.mk q.mpid q.email (toString r.status)
            (if r.status = 202 then "Success" else r.text))), 1, rest)) ∧
    (∀ (b : List Row) (m : String) (r : Resp) (rest : List Outcome),
        send_batch b false 3 (Outcome.exc m :: Outcome.resp r :: rest) =
          (some (b.map (fun q => LogRow.mk q.mpid q.email (toString r.status)
            (if r.status = 202 then "Success" else r.text))), 2, rest)) ∧
    (∀ (b : List Row) (m1 m2 : String) (r : Resp) (rest : List Outcome),
        send_batch b false 3
            (Outcome.exc m1 :: Outcome.exc m2 :: Outcome.resp r :: rest) =
          (some (b.map (fun q => LogRow.mk q.mpid q.email (toString r.status)
            (if r.status = 202 then "Success" else r.text))), 3, rest)) ∧
    (∀ (b : List Row) (m1 m2 m3 : String) (rest : List Outcome),
        send_batch b false 3
            (Outcome.exc m1 :: Outcome.exc m2 :: Outcome.exc m3 :: rest) =
          (some (b.map (fun q => LogRow.mk q.mpid q.email "Error" m3)), 3, rest)) := by
  refine ⟨?_, fun _ _ _ => rfl, fun _ _ _ _ => rfl, fun _ _ _ _ _ => rfl,
    fun _ _ _ _ _ => rfl⟩
  intro b a r rest ha
  simp only [sendBatchLoop, if_pos ha]

/-- C4 witness: the general clause on a 500 response arriving on the third
attempt of the loop. -/
theorem c4_witness :
    sendBatchLoop [Row.mk "e@x" "777" ""] 3 2
        [Outcome.resp { status := 500, errorsMsg := none, text := "server error" }] =
      (some [LogRow.mk "777" "e@x" "500" "server error"], 3, []) :=
  c4_send_batch_amended.1 [Row.mk "e@x" "777" ""] 2
    { status := 500, errorsMsg := none, text := "server error" } [] (by decide)

/-- C5 counterexample: a run of two chunk files where the first row of the
first file crashes inside retryable_post (a special-cased 400 whose resend
exhausts its attempts returns a `None` response to the suspended frame, whose
`resp.status_code` access raises an uncaught AttributeError).  The step1 file
loop has no try/except, so the whole run aborts (`none`): the exception is
not caught and the second file is never processed. -/
theorem c5_counterexample :
    (step1_main false
        [[Row.mk "a@b.c" "123" "555"], [Row.mk "a@b.c" "124" "555"]]
        [mpid400Outcome, Outcome.exc "x", Outcome.exc "y", Outcome.exc "z"]).1 =
      none := by
  decide

/-- C5 (amended): in the step2 driver a file whose processing raises is
logged as failed and the remaining files are processed exactly as they would
have been (same logs, same POSTs); in the step1 driver an exception escaping
process_file aborts the whole run. -/
theorem c5_amended_file_exceptions :
    (∀ (e : String) (fs : List (Except String (List Row))) (d : Bool)
        (outs : List Outcome),
        step2_main d (Except.error e :: fs) outs =
          (none :: (step2_main d fs outs).1, (step2_main d fs outs).2.1,
           (step2_main d fs outs).2.2)) ∧
    (∀ (f : List Row) (fs : List (List Row)) (d : Bool) (outs : List Outcome),
        (process_file f d outs).1 = none →
        (step1_main d (f :: fs) outs).1 = none) := by
  constructor
  · intro e fs d outs
    rcases h : step2_main d fs outs with ⟨ls, a, rest⟩
    simp [step2_main, h]
  · intro f fs d outs h
    rcases hp : process_file f d outs with ⟨res, rest, sent⟩
    rw [hp] at h
    simp only at h
    subst h
    simp [step1_main, hp]

/-- C5 witness: the amended statement at concrete inputs — an erroring file
in step2 is skipped while the rest continue, and a crashing file in step1
aborts the run. -/
theorem c5_witness :
    step2_main false [Except.error "boom", Except.ok [Row.mk "a@b" "9" ""]]
        [Outcome.resp { status := 202, errorsMsg := none, text := "accepted" }] =
      (none :: (step2_main false [Except.ok [Row.mk "a@b" "9" ""]]
          [Outcome.resp { status := 202, errorsMsg := none, text := "accepted" }]).1,
       (step2_main false [Except.ok [Row.mk "a@b" "9" ""]]
          [Outcome.resp { status := 202, errorsMsg := none, text := "accepted" }]).2.1,
       (step2_main false [Except.ok [Row.mk "a@b" "9" ""]]
          [Outcome.resp { status := 202, errorsMsg := none, text := "accepted" }]).2.2) ∧
    (step1_main false [[Row.mk "a@b.c" "125" "555"], [Row.mk "" "9" ""]]
        [mpid400Outcome, Outcome.exc "u", Outcome.exc "v", Outcome.exc "w"]).1 =
      none :=
  ⟨c5_amended_file_exceptions.1 "boom" [Except.ok [Row.mk "a@b" "9" ""]] false
      [Outcome.resp { status := 202, errorsMsg := none, text := "accepted" }],
   c5_amended_file_exceptions.2 [Row.mk "a@b.c" "125" "555"] [[Row.mk "" "9" ""]] false
      [mpid400Outcome, Outcome.exc "u", Outcome.exc "v", Outcome.exc "w"] (by decide)⟩

/-- C8: a row whose MPID is blank (or missing, which reads as "") is recorded
with modify_status and events_status both "skipped", zero retries, and no
outcome is consumed and no payload POSTed for it. -/
theorem c8_skip_blank_mpid (row : Row) (dry : Bool) (outs : List Outcome)
    (h : normBlank row.mpid = none) :
    process_row row dry outs =
      (some { mpid := "", email := pyOrBlank (normBlank row.email),
              phone := pyOrBlank (normBlank row.phone), modify_status := "skipped",
              events_status := "skipped", retries := 0,
              message := "SKIPPED: Missing MPID" }, outs, []) := by
  simp only [process_row, h]

/-- C8 witness: a concrete row with whitespace-only MPID. -/
theorem c8_witness :
    process_row (Row.mk "u@v" " " "9") true
        [Outcome.resp { status := 200, errorsMsg := none, text := "OK" }] =
      (some { mpid := "", email := "u@v", phone := "9", modify_status := "skipped",
              events_status := "skipped", retries := 0,
              message := "SKIPPED: Missing MPID" },
       [Outcome.resp { status := 200, errorsMsg := none, text := "OK" }], []) :=
  c8_skip_blank_mpid (Row.mk "u@v" " " "9") true
    [Outcome.resp { status := 200, errorsMsg := none, text := "OK" }] (by decide)

theorem build_modify_payload_none_none (env : String) :
    build_modify_payload none none env =
      { environment := env, identity_changes := some [], mpid := none } := rfl

/-- C10: a row with a non-blank MPID but blank email and phone still issues
the modify POST, and the first payload sent is the modify payload with an
empty identity_changes list. -/
theorem c10_empty_changes_still_posts (row : Row) (outs : List Outcome) (m : String)
    (hm : normBlank row.mpid = some m)
    (he : normBlank row.email = none) (hp : normBlank row.phone = none) :
    (process_row row false outs).2.2.head? =
      some { environment := ENVIRONMENT, identity_changes := some [], mpid := none } := by
  have hhead := retryable_post_sent_head
    { environment := ENVIRONMENT, identity_changes := some [], mpid := none } outs
  simp only [process_row, hm, he, hp, build_modify_payload_none_none]
  rw [if_neg Bool.false_ne_true]
  rcases hrp : retryable_post
      { environment := ENVIRONMENT, identity_changes := some [], mpid := none }
      false outs with ⟨res, rest, sent⟩
  rw [hrp] at hhead
  simp only at hhead
  rcases sent with _ | ⟨s0, stail⟩
  · simp at hhead
  · simp only [List.head?] at hhead
    injection hhead with hs0
    subst hs0
    cases res with
    | crash => simp
    | ok resp att err =>
      simp only
      split
      · rcases hrp2 : retryable_post (build_events_payload m) false rest with
          ⟨res2, rest2, sent2⟩
        cases res2 <;> simp
      · simp

/-- C10 witness: a concrete row with MPID "42" and blank email and phone,
against an empty outcome script (the POST is still attempted). -/
theorem c10_witness :
    (process_row (Row.mk "" "42" "  ") false []).2.2.head? =
      some { environment := ENVIRONMENT, identity_changes := some [], mpid := none } :=
  c10_empty_changes_still_posts (Row.mk "" "42" "  ") [] "42"
    (by decide) (by decide) (by decide)

/-! ### Dry-run lemmas -/

theorem process_row_dry (row : Row) (outs : List Outcome) :
    process_row row true outs = (some (dry_row_result row), outs, []) := by
  cases h : normBlank row.mpid <;> simp [process_row, dry_row_result, h]

theorem process_file_dry (rows : List Row) :
    ∀ outs : List Outcome,
      process_file rows true outs = (some (rows.map dry_row_result), outs, []) := by
  induction rows with
  | nil => intro outs; simp [process_file]
  | cons r rs ih => intro outs; simp [process_file, process_row_dry, ih]

theorem step1_main_dry (files : List (List Row)) :
    ∀ outs : List Outcome,
      step1_main true files outs =
        (some (files.map (fun f => f.map dry_row_result)), outs, []) := by
  induction files with
  | nil => intro outs; simp [step1_main]
  | cons f fs ih => intro outs; simp [step1_main, process_file_dry, ih]

theorem send_batch_dry (b : List Row) (retries : Nat) (outs : List Outcome) :
    send_batch b true retries outs =
      (some (b.map (fun r => LogRow.mk r.mpid r.email "DRY_RUN" "Simulated")),
       0, outs) := rfl

theorem process_batches_dry (bs : List (List Row)) :
    ∀ outs : List Outcome,
      process_batches true bs outs =
        (bs.map (fun b =>
          some (b.map (fun r => LogRow.mk r.mpid r.email "DRY_RUN" "Simulated"))),
         0, outs) := by
  induction bs with
  | nil => intro outs; simp [process_batches]
  | cons b bs ih => intro outs; simp [process_batches, send_batch_dry, ih]

theorem step2_main_dry (files : List (Except String (List Row))) :
    ∀ outs : List Outcome,
      step2_main true files outs =
        (files.map (fun f =>
          match f with
          | Except.error _ => none
          | Except.ok rows => some ((chunkify BATCH_SIZE rows).map (fun b =>
              some (b.map (fun r => LogRow.mk r.mpid r.email "DRY_RUN" "Simulated"))))),
         0, outs) := by
  induction files with
  | nil => intro outs; simp [step2_main]
  | cons f fs ih =>
    intro outs
    cases f with
    | error e => simp [step2_main, ih]
    | ok rows => simp [step2_main, process_batches_dry, ih]

/-- C9: with the dry-run flag set, no POST is ever issued, for any inputs:
retryable_post returns immediately with no attempts; the whole step1 run
returns the fabricated per-row results, consumes no scripted outcome and
sends no payload; and the whole step2 run logs simulated successes with zero
POSTs and no scripted outcome consumed. -/
theorem c9_dry_run_no_posts :
    (∀ (p : Payload) (outs : List Outcome),
        retryable_post p true outs = (RPResult.ok none 0 none, outs, [])) ∧
    (∀ (files : List (List Row)) (outs : List Outcome),
        step1_main true files outs =
          (some (files.map (fun f => f.map dry_row_result)), outs, [])) ∧
    (∀ (files : List (Except String (List Row))) (outs : List Outcome),
        (step2_main true files outs).2.1 = 0 ∧
        (step2_main true files outs).2.2 = outs) := by
  refine ⟨fun _ _ => rfl, fun files outs => step1_main_dry files outs, ?_⟩
  intro files outs
  rw [step2_main_dry files outs]
  exact ⟨rfl, rfl⟩

end Merge
